import Mathlib

/-!
Verification of the bucketed asset-grid store
(`src/web/src/lib/stores/assets.store.ts`) and the upload-pipeline job
dispatch contract (`src/server/libs/domain/src/asset/asset.service.spec.ts`).

Modelling conventions:
* JS numbers used for heights are modelled as `Int` (pixel arithmetic only).
* Each `AbortController` is modelled as a `Nat` identifier; allocating
  `new AbortController()` draws a fresh identifier from a counter, and the
  set of aborted controllers is a list of identifiers.
* `Array.prototype.findIndex` returning `-1` followed by `buckets[-1]`
  (which throws a `TypeError` in JS) is mirrored by `List.findIdx`
  (which returns the length when nothing matches) followed by `l[i]?`
  returning `none`.  When such a throw happens inside
  `assetGridState.update`, the svelte store is left unchanged, so trace
  steps map that branch to an unchanged state.
* The asynchronous fetch of `getAssetsByBucket` is modelled by a trace
  semantics: an `issue` step records an in-flight fetch bound to the
  bucket's abort controller at issue time, and a `settle` step delivers the
  result.  Per the AbortController/axios contract, the fetch promise
  rejects with `CanceledError` exactly when its signal was aborted before
  settlement; and since the JS event loop runs no other macrotask between
  a promise's settlement and its `await` continuation, applying the result
  is atomic with settlement.
-/

namespace AssetStore

/-- An asset summary as used by the grid store (only the fields the store
reads: `id` and `isFavorite`). -/
structure Asset where
  id : String
  isFavorite : Bool
deriving DecidableEq, Repr

/-- One entry of the initial bucket layout: `TimeBucketResponseDto`
(`timeBucket` key and item `count`). -/
structure BucketData where
  timeBucket : String
  count : Nat
deriving DecidableEq, Repr

/-- A time bucket of the grid (`AssetGridState.buckets` element):
`bucketDate`, `bucketHeight`, its `assets` and its abort controller
(`cancelToken`), modelled as a controller identifier. -/
structure AssetBucket where
  bucketDate : String
  bucketHeight : Int
  assets : List Asset
  cancelToken : Nat
deriving DecidableEq, Repr

/-- The grid state (`AssetGridState`). -/
structure AssetGridState where
  initialized : Bool
  viewportHeight : Int
  viewportWidth : Int
  timelineHeight : Int
  buckets : List AssetBucket
  assets : List Asset
deriving DecidableEq, Repr

/-- `new AssetGridState()`: uninitialized, no buckets, no assets. -/
def AssetGridState.empty : AssetGridState :=
  { initialized := false
    viewportHeight := 0
    viewportWidth := 0
    timelineHeight := 0
    buckets := []
    assets := [] }

/-- `flatMap(state.buckets, (b) => b.assets)`. -/
def flatMapAssets (buckets : List AssetBucket) : List Asset :=
  buckets.flatMap (fun b => b.assets)

/-- `sumBy(state.buckets, (d) => d.bucketHeight)`. -/
def sumHeights (buckets : List AssetBucket) : Int :=
  (buckets.map (fun b => b.bucketHeight)).sum

/-- The buckets built by `setInitialState`: one per layout entry, with
`bucketHeight = calculateViewportHeightByNumberOfAsset(count, viewportWidth)`
(the estimator is a parameter: it lives in `viewport-utils`, outside the
store), empty `assets`, and a freshly allocated abort controller
(`new AbortController()` per entry, so the identifiers count up from
`tok0`). -/
def mkBuckets (estimator : Nat → Int → Int) (viewportWidth : Int) :
    List BucketData → Nat → List AssetBucket
  | [], _ => []
  | d :: rest, tok0 =>
      { bucketDate := d.timeBucket
        bucketHeight := estimator d.count viewportWidth
        assets := []
        cancelToken := tok0 } :: mkBuckets estimator viewportWidth rest (tok0 + 1)

/-- First phase of `setInitialState`: the `assetGridState.set({...})` call,
which writes `timelineHeight: 0`. -/
def setInitialStatePhase1 (estimator : Nat → Int → Int)
    (viewportHeight viewportWidth : Int) (timeBuckets : List BucketData)
    (tok0 : Nat) : AssetGridState :=
  { initialized := true
    viewportHeight := viewportHeight
    viewportWidth := viewportWidth
    timelineHeight := 0
    buckets := mkBuckets estimator viewportWidth timeBuckets tok0
    assets := [] }

/-- `setInitialState`: the `set` call above followed by the
`assetGridState.update` that overwrites `timelineHeight` with
`sumBy(state.buckets, (d) => d.bucketHeight)`.  No validation of the layout
is performed and no fetch is issued. -/
def setInitialState (estimator : Nat → Int → Int)
    (viewportHeight viewportWidth : Int) (timeBuckets : List BucketData)
    (tok0 : Nat) : AssetGridState :=
  let s := setInitialStatePhase1 estimator viewportHeight viewportWidth timeBuckets tok0
  { s with timelineHeight := sumHeights s.buckets }

/-- The `assetGridState.update` inside `getAssetsByBucket` after a
successful fetch: find the bucket by date, replace its `assets` with the
fetched ones, recompute the flattened `state.assets`.  If the bucket is
gone (`findIndex` gives `-1`), `state.buckets[-1].assets = ...` throws
inside the update, the store is left unchanged and the exception is
swallowed by the surrounding `catch`. -/
def applyBucketAssets (bucket : String) (fetched : List Asset)
    (s : AssetGridState) : AssetGridState :=
  let bucketIndex := s.buckets.findIdx (fun b => b.bucketDate == bucket)
  match s.buckets[bucketIndex]? with
  | none => s
  | some b =>
      let buckets1 := s.buckets.set bucketIndex { b with assets := fetched }
      { s with buckets := buckets1, assets := flatMapAssets buckets1 }

/-- Outcome of the awaited fetch inside `getAssetsByBucket`: it resolves
with data, rejects with `CanceledError`, or rejects with any other error. -/
inductive FetchResult where
  | success (assets : List Asset)
  | canceled
  | failure
deriving DecidableEq, Repr

/-- `getAssetsByBucket(bucket)` as a function of the fetch outcome.
Returns the resulting state together with the number of fetches issued
(0 or 1).  If the bucket is found and already has assets
(`currentBucketData?.assets && currentBucketData.assets.length > 0`) it
returns immediately without fetching; otherwise the fetch is issued and
on success the result is applied, while `CanceledError` is discarded
silently and any other error is logged and swallowed (state unchanged). -/
def getAssetsByBucket (bucket : String) (outcome : FetchResult)
    (s : AssetGridState) : AssetGridState × Nat :=
  let currentBucketData := s.buckets.find? (fun b => b.bucketDate == bucket)
  if (currentBucketData.map (fun b => decide (b.assets.length > 0))).getD false then
    (s, 0)
  else
    match outcome with
    | .success fetched => (applyBucketAssets bucket fetched s, 1)
    | .canceled => (s, 1)
    | .failure => (s, 1)

/-- `_removeBucket(bucketDate)`: splice out the first bucket with that
date and recompute the flattened assets.  (A missing date would make
`buckets.splice(-1, 1)` remove the last element in JS; the callers below
only invoke it with a date that is present.) -/
def removeBucketFrom (bucketDate : String) (buckets : List AssetBucket) :
    List AssetBucket :=
  buckets.eraseIdx (buckets.findIdx (fun b => b.bucketDate == bucketDate))

/-- `removeAsset(assetId)`: locate the first bucket containing the asset,
splice the asset out, prune the bucket if it became empty, recompute the
flattened assets.  `none` is the JS error branch: `findIndex` returned
`-1` and `state.buckets[-1].assets` threw. -/
def removeAsset (assetId : String) (s : AssetGridState) :
    Option AssetGridState :=
  let bucketIndex := s.buckets.findIdx (fun b => b.assets.any (fun a => a.id == assetId))
  match s.buckets[bucketIndex]? with
  | none => none
  | some b =>
      let assetIndex := b.assets.findIdx (fun a => a.id == assetId)
      let newAssets := b.assets.eraseIdx assetIndex
      let buckets1 := s.buckets.set bucketIndex { b with assets := newAssets }
      let buckets2 :=
        if newAssets.length == 0 then removeBucketFrom b.bucketDate buckets1
        else buckets1
      some { s with buckets := buckets2, assets := flatMapAssets buckets2 }

/-- `updateBucketHeight(bucket, actualBucketHeight)`: find the bucket,
adjust `timelineHeight` by the signed difference between the actual and
the stored height, store the actual height.  `none` is the JS error
branch for a missing bucket. -/
def updateBucketHeight (bucket : String) (actualBucketHeight : Int)
    (s : AssetGridState) : Option AssetGridState :=
  let bucketIndex := s.buckets.findIdx (fun b => b.bucketDate == bucket)
  match s.buckets[bucketIndex]? with
  | none => none
  | some b =>
      let estimateBucketHeight := b.bucketHeight
      let newTimeline :=
        if actualBucketHeight ≥ estimateBucketHeight then
          s.timelineHeight + (actualBucketHeight - estimateBucketHeight)
        else
          s.timelineHeight - (estimateBucketHeight - actualBucketHeight)
      some { s with
              timelineHeight := newTimeline
              buckets := s.buckets.set bucketIndex
                { b with bucketHeight := actualBucketHeight } }

/-- `updateAsset(assetId, isFavorite)`: locate the owning bucket and the
asset, set its flag, recompute the flattened assets.  `none` is the JS
error branch for a missing asset. -/
def updateAsset (assetId : String) (isFavorite : Bool)
    (s : AssetGridState) : Option AssetGridState :=
  let bucketIndex := s.buckets.findIdx (fun b => b.assets.any (fun a => a.id == assetId))
  match s.buckets[bucketIndex]? with
  | none => none
  | some b =>
      let assetIndex := b.assets.findIdx (fun a => a.id == assetId)
      match b.assets[assetIndex]? with
      | none => none
      | some a =>
          let newAssets := b.assets.set assetIndex { a with isFavorite := isFavorite }
          let buckets1 := s.buckets.set bucketIndex { b with assets := newAssets }
          some { s with buckets := buckets1, assets := flatMapAssets buckets1 }

/-- An in-flight fetch of `getAssetsByBucket`: the bucket date it was
issued for and the abort controller its signal was bound to at issue time
(`currentBucketData?.cancelToken.signal`; `none` models the `undefined`
signal used when the bucket was not found at issue time — such a fetch is
not abortable). -/
structure InFlight where
  bucket : String
  token : Option Nat
deriving DecidableEq, Repr

/-- The whole store system: the grid state, the set of aborted controller
identifiers, the in-flight fetches, and the allocator counter for fresh
controllers.  Every controller identifier ever stored in a bucket is below
`nextToken`, so fresh controllers are really fresh. -/
structure Sys where
  grid : AssetGridState
  aborted : List Nat
  pending : List InFlight
  nextToken : Nat
deriving DecidableEq, Repr

/-- The operations of the store as trace events.  `issue`/`settle` are the
two halves of `getAssetsByBucket` around its `await`; the other events are
the synchronous operations. -/
inductive Event where
  | setInitial (viewportHeight viewportWidth : Int) (layout : List BucketData)
  | issue (bucket : String)
  | settle (f : InFlight) (result : List Asset)
  | cancel (bucket : String)
  | reset
  | removeItem (assetId : String)
  | updateFlag (assetId : String) (isFavorite : Bool)
  | measure (bucket : String) (actualHeight : Int)
deriving DecidableEq, Repr

/-- The synchronous prefix of `getAssetsByBucket` up to the `await`: if
the bucket is found and already has assets, return without fetching;
otherwise record an in-flight fetch bound to the bucket's current abort
controller (or to no controller when the bucket is absent). -/
def issueFetch (bucket : String) (s : Sys) : Sys :=
  match s.grid.buckets.find? (fun b => b.bucketDate == bucket) with
  | some b =>
      if b.assets.length > 0 then s
      else { s with pending := ⟨bucket, some b.cancelToken⟩ :: s.pending }
  | none => { s with pending := ⟨bucket, none⟩ :: s.pending }

/-- Settlement of an in-flight fetch.  Per the AbortController contract the
promise rejects with `CanceledError` exactly when its signal's controller
was aborted before settlement; applying a successful result is atomic with
settlement (no macrotask can run in between), so the update runs against
the state at settlement time. -/
def settleFetch (f : InFlight) (result : List Asset) (s : Sys) : Sys :=
  if f ∈ s.pending then
    let cancelledNow : Bool :=
      match f.token with
      | some t => s.aborted.contains t
      | none => false
    { s with
        pending := s.pending.erase f
        grid := if cancelledNow then s.grid
                else applyBucketAssets f.bucket result s.grid }
  else s

/-- `cancelBucketRequest(token, bucketDate)` as invoked by the UI with the
bucket's own `cancelToken`: abort that controller, then install a freshly
allocated controller on the bucket.  When the bucket is absent there is no
token to pass and the call is not made. -/
def cancelBucketRequest (bucket : String) (s : Sys) : Sys :=
  match s.grid.buckets.find? (fun b => b.bucketDate == bucket) with
  | none => s
  | some b =>
      let bucketIndex := s.grid.buckets.findIdx (fun c => c.bucketDate == bucket)
      { s with
          aborted := b.cancelToken :: s.aborted
          grid := { s.grid with
                      buckets := s.grid.buckets.set bucketIndex
                        { b with cancelToken := s.nextToken } }
          nextToken := s.nextToken + 1 }

/-- `reset()`: abort every bucket's controller, then replace the grid with
`new AssetGridState()`. -/
def resetStore (s : Sys) : Sys :=
  { s with
      aborted := s.grid.buckets.map (fun b => b.cancelToken) ++ s.aborted
      grid := AssetGridState.empty }

/-- One step of the store: dispatch an event.  The error branches of the
synchronous operations (a throw inside `assetGridState.update`) leave the
store unchanged. -/
def stepEvent (estimator : Nat → Int → Int) : Event → Sys → Sys
  | .setInitial vh vw layout, s =>
      { s with
          grid := setInitialState estimator vh vw layout s.nextToken
          nextToken := s.nextToken + layout.length }
  | .issue bucket, s => issueFetch bucket s
  | .settle f result, s => settleFetch f result s
  | .cancel bucket, s => cancelBucketRequest bucket s
  | .reset, s => resetStore s
  | .removeItem assetId, s =>
      { s with grid := (removeAsset assetId s.grid).getD s.grid }
  | .updateFlag assetId fav, s =>
      { s with grid := (updateAsset assetId fav s.grid).getD s.grid }
  | .measure bucket h, s =>
      { s with grid := (updateBucketHeight bucket h s.grid).getD s.grid }

/-- Run a list of events, oldest first. -/
def exec (estimator : Nat → Int → Int) (events : List Event) (s : Sys) : Sys :=
  events.foldl (fun acc e => stepEvent estimator e acc) s

/-- Invariant I3: the flattened `assets` list equals the concatenation of
the buckets' asset lists in bucket order. -/
def I3 (s : AssetGridState) : Prop :=
  s.assets = flatMapAssets s.buckets

/-- A concrete height estimator used to instantiate theorems on concrete
inputs (any pure function would do; the store treats it as opaque). -/
def demoEstimator : Nat → Int → Int :=
  fun count _ => (count : Int) * 235

end AssetStore

namespace AssetService

/-- The job names of the upload pipeline referenced by the dispatch
contract (from `asset.service.spec.ts`). -/
inductive JobName where
  | generateJpegThumbnail
  | videoConversion
  | extractVideoMetadata
  | exifExtraction
  | searchIndexAsset
deriving DecidableEq, Repr

/-- The media type of an uploaded item, as far as the dispatch contract
distinguishes it. -/
inductive AssetType where
  | image
  | video
deriving DecidableEq, Repr

/-- A queued job: its name and the identifier payload it carries. -/
structure QueuedJob where
  name : JobName
  ids : List String
deriving DecidableEq, Repr

/-- Modelled from the spec: the `AssetService.handleAssetUpload`
implementation is not under `src/` (only its unit test
`asset.service.spec.ts` is).  Per the spec, on new item ingestion a
thumbnail-generation job is always enqueued first; a video additionally
gets a transcode job then a metadata-extraction job, in that order; an
image additionally gets a metadata(EXIF)-extraction job.  Returns the
queue calls in order. -/
def handleAssetUpload (t : AssetType) : List JobName :=
  [JobName.generateJpegThumbnail] ++
    (match t with
     | .video => [JobName.videoConversion, JobName.extractVideoMetadata]
     | .image => [JobName.exifExtraction])

/-- Modelled from the spec: the `AssetService.save` implementation is not
under `src/`.  Per the spec, an explicit save of an item enqueues a
search-index-update job keyed by the item's identifier. -/
def saveJobs (assetId : String) : List QueuedJob :=
  [{ name := JobName.searchIndexAsset, ids := [assetId] }]

end AssetService

namespace AssetStore

/-- Auxiliary: `findIdx` on a list split around the first match. -/
theorem findIdx_middle {α : Type} {p : α → Bool} (pre : List α) (b : α) (post : List α)
    (hpre : ∀ x ∈ pre, p x = false) (hb : p b = true) :
    (pre ++ b :: post).findIdx p = pre.length := by
  rw [List.findIdx_append, List.findIdx_eq_length_of_false hpre]
  simp [List.findIdx_cons, hb]

/-- Auxiliary: indexing a split list at the split point. -/
theorem getElem?_middle {α : Type} (pre : List α) (b : α) (post : List α) :
    (pre ++ b :: post)[pre.length]? = some b := by
  rw [List.getElem?_append_right (Nat.le_refl pre.length)]
  simp

/-- Auxiliary: updating a split list at the split point. -/
theorem set_middle {α : Type} (pre : List α) (b x : α) (post : List α) :
    (pre ++ b :: post).set pre.length x = pre ++ x :: post := by
  rw [List.set_append_right _ _ (Nat.le_refl pre.length)]
  simp

/-- Auxiliary: erasing a split list at the split point. -/
theorem eraseIdx_middle {α : Type} (pre : List α) (b : α) (post : List α) :
    (pre ++ b :: post).eraseIdx pre.length = pre ++ post := by
  rw [List.eraseIdx_append_of_length_le (Nat.le_refl pre.length)]
  simp

/-- Auxiliary: the flattened assets of an appended bucket list. -/
theorem flatMapAssets_append (l₁ l₂ : List AssetBucket) :
    flatMapAssets (l₁ ++ l₂) = flatMapAssets l₁ ++ flatMapAssets l₂ := by
  simp [flatMapAssets]

/-- Auxiliary: the flattened assets of a cons. -/
theorem flatMapAssets_cons (b : AssetBucket) (l : List AssetBucket) :
    flatMapAssets (b :: l) = b.assets ++ flatMapAssets l := by
  simp [flatMapAssets]

/-- Auxiliary: replacing a bucket by one with the same assets leaves the
flattened asset list unchanged. -/
theorem flatMapAssets_set_same (l : List AssetBucket) (i : Nat) (b b' : AssetBucket)
    (hget : l[i]? = some b) (hassets : b'.assets = b.assets) :
    flatMapAssets (l.set i b') = flatMapAssets l := by
  induction l generalizing i with
  | nil => simp at hget
  | cons x xs ih =>
    cases i with
    | zero =>
        simp only [List.getElem?_cons_zero, Option.some.injEq] at hget
        subst hget
        simp [List.set, flatMapAssets_cons, hassets]
    | succ n =>
        simp only [List.getElem?_cons_succ] at hget
        simp [List.set, flatMapAssets_cons, ih n hget]

/-- Auxiliary: `find?` returns the element sitting at `findIdx`. -/
theorem getElem?_findIdx_of_find? {α : Type} {p : α → Bool} {l : List α} {b : α}
    (h : l.find? p = some b) : l[l.findIdx p]? = some b := by
  induction l with
  | nil => simp at h
  | cons x xs ih =>
    by_cases hx : p x
    · rw [List.find?_cons_of_pos _ hx] at h
      cases h
      simp [List.findIdx_cons, hx]
    · rw [List.find?_cons_of_neg _ hx] at h
      simp [List.findIdx_cons, hx, ih h]

/-- Auxiliary: the buckets built by `setInitialState`, projected to the
fields that do not involve controller allocation. -/
theorem mkBuckets_map (estimator : Nat → Int → Int) (vw : Int)
    (layout : List BucketData) (tok0 : Nat) :
    (mkBuckets estimator vw layout tok0).map (fun b => (b.bucketDate, b.bucketHeight, b.assets))
      = layout.map (fun d => (d.timeBucket, estimator d.count vw, ([] : List Asset))) := by
  induction layout generalizing tok0 with
  | nil => rfl
  | cons d rest ih => simp [mkBuckets, ih]

/-- Auxiliary: the bucket dates built by `setInitialState` are exactly the
layout keys, in order. -/
theorem mkBuckets_dates (estimator : Nat → Int → Int) (vw : Int)
    (layout : List BucketData) (tok0 : Nat) :
    (mkBuckets estimator vw layout tok0).map (fun b => b.bucketDate)
      = layout.map (fun d => d.timeBucket) := by
  induction layout generalizing tok0 with
  | nil => rfl
  | cons d rest ih => simp [mkBuckets, ih]

/-- Auxiliary: the bucket heights built by `setInitialState` are the
estimator applied to each layout count. -/
theorem mkBuckets_heights (estimator : Nat → Int → Int) (vw : Int)
    (layout : List BucketData) (tok0 : Nat) :
    (mkBuckets estimator vw layout tok0).map (fun b => b.bucketHeight)
      = layout.map (fun d => estimator d.count vw) := by
  induction layout generalizing tok0 with
  | nil => rfl
  | cons d rest ih => simp [mkBuckets, ih]

/-- Auxiliary: every bucket built by `setInitialState` starts with no
assets. -/
theorem mkBuckets_assets_empty (estimator : Nat → Int → Int) (vw : Int)
    (layout : List BucketData) (tok0 : Nat) :
    ∀ b ∈ mkBuckets estimator vw layout tok0, b.assets = [] := by
  induction layout generalizing tok0 with
  | nil => intro b hb; simp [mkBuckets] at hb
  | cons d rest ih =>
      intro b hb
      simp only [mkBuckets, List.mem_cons] at hb
      rcases hb with rfl | hb
      · rfl
      · exact ih (tok0 + 1) b hb

/-- Auxiliary: flattening buckets that all have empty asset lists gives
the empty list. -/
theorem flatMapAssets_eq_nil (l : List AssetBucket) (h : ∀ b ∈ l, b.assets = []) :
    flatMapAssets l = [] := by
  induction l with
  | nil => rfl
  | cons x xs ih =>
      rw [flatMapAssets_cons, h x (List.mem_cons_self x xs), ih]
      · rfl
      · intro b hb; exact h b (List.mem_cons_of_mem x hb)

/-- C5: for every bucket layout with distinct keys and any viewport
metrics, `setInitialState` constructs one Empty bucket per `(bucketKey,
itemCount)` entry with height `estimator itemCount viewportWidth`, sets
`timelineHeight` to the sum of those estimated heights, sets the
flattened asset list to empty, sets `initialized = true`, and issues no
fetch (the set of in-flight fetches is untouched). -/
theorem setInitialState_correct (estimator : Nat → Int → Int)
    (vh vw : Int) (layout : List BucketData) (tok0 : Nat)
    (hkeys : (layout.map (fun d => d.timeBucket)).Nodup) :
    (setInitialState estimator vh vw layout tok0).initialized = true ∧
    (setInitialState estimator vh vw layout tok0).assets = [] ∧
    (setInitialState estimator vh vw layout tok0).buckets.map
        (fun b => (b.bucketDate, b.bucketHeight, b.assets))
      = layout.map (fun d => (d.timeBucket, estimator d.count vw, ([] : List Asset))) ∧
    (setInitialState estimator vh vw layout tok0).timelineHeight
      = (layout.map (fun d => estimator d.count vw)).sum ∧
    ∀ sys : Sys, (stepEvent estimator (Event.setInitial vh vw layout) sys).pending
      = sys.pending := by
  refine ⟨rfl, rfl, mkBuckets_map estimator vw layout tok0, ?_, fun sys => rfl⟩
  show sumHeights (mkBuckets estimator vw layout tok0) = _
  rw [sumHeights, mkBuckets_heights]

/-- Witness for C5: the distinct-keys hypothesis holds at the Scenario A
layout and the theorem computes the initial timeline height there. -/
theorem setInitialState_correct_witness :
    (([⟨"2024-01", 10⟩, ⟨"2024-02", 5⟩] : List BucketData).map
        (fun d => d.timeBucket)).Nodup ∧
    (setInitialState demoEstimator 800 400 [⟨"2024-01", 10⟩, ⟨"2024-02", 5⟩] 0).timelineHeight
      = 3525 := by
  refine ⟨by decide, ?_⟩
  rw [(setInitialState_correct demoEstimator 800 400 [⟨"2024-01", 10⟩, ⟨"2024-02", 5⟩] 0
        (by decide)).2.2.2.1]
  decide

/-- C3 counterexample: on a layout with a duplicate bucket key,
`setInitialState` does not fail — the source has no `InvalidLayout` path —
and it establishes a state whose bucket keys are not distinct, violating
I1. -/
theorem setInitialState_dup_counterexample :
    (setInitialState demoEstimator 800 400 [⟨"2024-01", 10⟩, ⟨"2024-01", 5⟩] 0).initialized
      = true ∧
    ¬ (((setInitialState demoEstimator 800 400 [⟨"2024-01", 10⟩, ⟨"2024-01", 5⟩] 0).buckets.map
        (fun b => b.bucketDate)).Nodup) := by
  decide

/-- C3 amended: `setInitialState` performs no duplicate-key validation;
for every layout, duplicate keys included, the call succeeds, marks the
state initialized, and installs one bucket per layout entry so that the
bucket keys are exactly the layout keys in order (duplicates preserved,
violating I1 when the layout has duplicates). -/
theorem setInitialState_no_validation (estimator : Nat → Int → Int)
    (vh vw : Int) (layout : List BucketData) (tok0 : Nat) :
    (setInitialState estimator vh vw layout tok0).initialized = true ∧
    (setInitialState estimator vh vw layout tok0).buckets.map (fun b => b.bucketDate)
      = layout.map (fun d => d.timeBucket) :=
  ⟨rfl, mkBuckets_dates estimator vw layout tok0⟩

/-- C8: a fetch failure inside `getAssetsByBucket` that is not classified
as cancelled leaves the whole grid state unchanged: the bucket keeps its
empty asset list (so it stays Empty and retryable), no other bucket, the
flattened list or `timelineHeight` is affected, and the error is swallowed
(the operation returns normally). -/
theorem fetchFailure_state_unchanged (k : String) (s : AssetGridState) :
    (getAssetsByBucket k FetchResult.failure s).fst = s := by
  by_cases hguard : (((s.buckets.find? (fun b => b.bucketDate == k)).map
      (fun b => decide (b.assets.length > 0))).getD false : Bool) = true
  · simp [getAssetsByBucket, hguard]
  · simp [getAssetsByBucket, hguard]

/-- Auxiliary: `applyBucketAssets` on a state whose bucket list splits
around the first bucket with the requested date. -/
theorem applyBucketAssets_found (k : String) (fetched : List Asset) (s : AssetGridState)
    (pre post : List AssetBucket) (b : AssetBucket)
    (hsplit : s.buckets = pre ++ b :: post)
    (hpre : ∀ c ∈ pre, (c.bucketDate == k) = false)
    (hb : (b.bucketDate == k) = true) :
    applyBucketAssets k fetched s =
      { s with buckets := pre ++ { b with assets := fetched } :: post
               assets := flatMapAssets (pre ++ { b with assets := fetched } :: post) } := by
  unfold applyBucketAssets
  rw [hsplit, findIdx_middle pre b post hpre hb]
  simp only [getElem?_middle, set_middle]

/-- C7: for every state whose bucket list contains a bucket with date `k`
(split around its first occurrence), `recordMeasuredHeight(k, h)` sets
that bucket's height to `h`, changes `timelineHeight` by exactly
`h - previous height` (a signed delta), and leaves every other bucket,
the per-bucket asset lists and the flattened asset list unchanged. -/
theorem updateBucketHeight_correct (k : String) (h : Int) (s : AssetGridState)
    (pre post : List AssetBucket) (b : AssetBucket)
    (hsplit : s.buckets = pre ++ b :: post)
    (hpre : ∀ c ∈ pre, (c.bucketDate == k) = false)
    (hb : (b.bucketDate == k) = true) :
    updateBucketHeight k h s =
      some { s with timelineHeight := s.timelineHeight + (h - b.bucketHeight)
                    buckets := pre ++ { b with bucketHeight := h } :: post } := by
  unfold updateBucketHeight
  rw [hsplit, findIdx_middle pre b post hpre hb]
  have harith : (if h ≥ b.bucketHeight then s.timelineHeight + (h - b.bucketHeight)
                 else s.timelineHeight - (b.bucketHeight - h))
      = s.timelineHeight + (h - b.bucketHeight) := by
    split <;> omega
  simp only [getElem?_middle, set_middle, harith]

/-- Witness for C7: measuring bucket "2024-02" at 120 after an estimate
of 90 raises the timeline height by exactly 30 (Scenario D). -/
theorem updateBucketHeight_correct_witness :
    updateBucketHeight "2024-02" 120
      { initialized := true, viewportHeight := 800, viewportWidth := 400,
        timelineHeight := 180,
        buckets := [⟨"2024-01", 90, [], 0⟩, ⟨"2024-02", 90, [], 1⟩], assets := [] }
      = some { initialized := true, viewportHeight := 800, viewportWidth := 400,
               timelineHeight := 210,
               buckets := [⟨"2024-01", 90, [], 0⟩, ⟨"2024-02", 120, [], 1⟩], assets := [] } := by
  rw [updateBucketHeight_correct "2024-02" 120 _ [⟨"2024-01", 90, [], 0⟩] []
        ⟨"2024-02", 90, [], 1⟩ rfl (by decide) (by decide)]
  rfl

/-- Auxiliary: a bucket that is already Loaded (non-empty assets) makes
`getAssetsByBucket` return immediately with no fetch, whatever the
would-be outcome. -/
theorem getAssetsByBucket_loaded (k : String) (s : AssetGridState) (b : AssetBucket)
    (hfind : s.buckets.find? (fun c => c.bucketDate == k) = some b)
    (hne : b.assets ≠ []) (outcome : FetchResult) :
    getAssetsByBucket k outcome s = (s, 0) := by
  have hlen : 0 < b.assets.length := List.length_pos.mpr hne
  simp [getAssetsByBucket, hfind, hlen]

/-- C6: `requestBucket` is idempotent on a Loaded bucket.  If the first
bucket with date `k` has non-empty assets, `getAssetsByBucket k` returns
the state unchanged and issues no fetch; and starting from an Empty
bucket, a first call that succeeds with a non-empty result followed by a
second call (any outcome) issues exactly one fetch in total and leaves
the state of the first call untouched. -/
theorem requestBucket_idempotent (k : String) (s : AssetGridState) (b : AssetBucket)
    (hfind : s.buckets.find? (fun c => c.bucketDate == k) = some b) :
    (b.assets ≠ [] → ∀ outcome, getAssetsByBucket k outcome s = (s, 0)) ∧
    (∀ fetched, b.assets = [] → fetched ≠ [] →
      (getAssetsByBucket k (FetchResult.success fetched) s).snd = 1 ∧
      ∀ outcome2,
        getAssetsByBucket k outcome2 (getAssetsByBucket k (FetchResult.success fetched) s).fst
          = ((getAssetsByBucket k (FetchResult.success fetched) s).fst, 0)) := by
  constructor
  · intro hne outcome
    exact getAssetsByBucket_loaded k s b hfind hne outcome
  · intro fetched hempty hfetched
    have hrun : getAssetsByBucket k (FetchResult.success fetched) s
        = (applyBucketAssets k fetched s, 1) := by
      simp [getAssetsByBucket, hfind, hempty]
    obtain ⟨hpb, pre, post, hsplit, hpre⟩ := List.find?_eq_some.mp hfind
    have hpre' : ∀ c ∈ pre, (c.bucketDate == k) = false := by
      intro c hc
      have := hpre c hc
      simpa using this
    have happ := applyBucketAssets_found k fetched s pre post b hsplit hpre' hpb
    have hfind2 : (applyBucketAssets k fetched s).buckets.find?
        (fun c => c.bucketDate == k) = some { b with assets := fetched } := by
      rw [happ]
      show (pre ++ { b with assets := fetched } :: post).find? (fun c => c.bucketDate == k)
        = some { b with assets := fetched }
      rw [List.find?_append, List.find?_eq_none.mpr (by intro c hc; simp [hpre' c hc]),
        List.find?_cons_of_pos _ (by simpa using hpb)]
      rfl
    refine ⟨by rw [hrun], ?_⟩
    intro outcome2
    rw [hrun]
    exact getAssetsByBucket_loaded k _ _ hfind2 (by simpa using hfetched) outcome2

/-- Witness for C6: with a single Empty bucket "b1", loading it with one
item and calling again issues no second fetch and keeps the state. -/
theorem requestBucket_idempotent_witness :
    getAssetsByBucket "b1" FetchResult.canceled
      (getAssetsByBucket "b1" (FetchResult.success [⟨"n1", false⟩])
        { AssetGridState.empty with buckets := [⟨"b1", 10, [], 0⟩] }).fst
      = ((getAssetsByBucket "b1" (FetchResult.success [⟨"n1", false⟩])
          { AssetGridState.empty with buckets := [⟨"b1", 10, [], 0⟩] }).fst, 0) :=
  ((requestBucket_idempotent "b1"
      { AssetGridState.empty with buckets := [⟨"b1", 10, [], 0⟩] }
      ⟨"b1", 10, [], 0⟩ (by decide)).2
    [⟨"n1", false⟩] rfl (by decide)).2 FetchResult.canceled

/-- Auxiliary: the element sitting at `findIdx` satisfies the predicate. -/
theorem pred_findIdx_getElem {α : Type} (p : α → Bool) (l : List α) (b : α)
    (h : l[l.findIdx p]? = some b) : p b = true := by
  induction l with
  | nil => simp at h
  | cons x xs ih =>
    rw [List.findIdx_cons] at h
    by_cases hx : p x
    · simp [hx] at h
      subst h
      exact hx
    · simp [hx] at h
      exact ih h

/-- C10: `removeAsset` and `updateAsset` silently require the asset to be
present: they hit their error branch (JS: `findIndex` returns `-1` and
`state.buckets[-1]` throws) exactly when no bucket's asset list contains
the identifier, and under the presence precondition the error branch is
unreachable. -/
theorem mutation_requires_membership (assetId : String) (fav : Bool)
    (s : AssetGridState) :
    ((removeAsset assetId s).isNone
        ↔ ∀ b ∈ s.buckets, ∀ a ∈ b.assets, a.id ≠ assetId) ∧
    ((updateAsset assetId fav s).isNone
        ↔ ∀ b ∈ s.buckets, ∀ a ∈ b.assets, a.id ≠ assetId) := by
  have habsent : ∀ b : AssetBucket,
      ((b.assets.any (fun a => a.id == assetId)) = false
        ↔ ∀ a ∈ b.assets, a.id ≠ assetId) := by
    intro b
    rw [← Bool.not_eq_true, List.any_eq_true]
    simp
  have hnone : (s.buckets[s.buckets.findIdx
        (fun b => b.assets.any (fun a => a.id == assetId))]? = none)
      ↔ ∀ b ∈ s.buckets, ∀ a ∈ b.assets, a.id ≠ assetId := by
    rw [List.getElem?_eq_none_iff]
    constructor
    · intro hle b hb
      exact (habsent b).mp
        (List.findIdx_eq_length.mp
          (Nat.le_antisymm (List.findIdx_le_length _) hle) b hb)
    · intro hall
      rw [List.findIdx_eq_length_of_false (fun b hb => (habsent b).mpr (hall b hb))]
  constructor
  · rw [← hnone]
    unfold removeAsset
    cases hget : s.buckets[s.buckets.findIdx
        (fun b => b.assets.any (fun a => a.id == assetId))]? with
    | none => simp [hget]
    | some b => simp [hget]
  · rw [← hnone]
    unfold updateAsset
    cases hget : s.buckets[s.buckets.findIdx
        (fun b => b.assets.any (fun a => a.id == assetId))]? with
    | none => simp [hget]
    | some b =>
        have hpb : (b.assets.any (fun a => a.id == assetId)) = true :=
          pred_findIdx_getElem (fun c => c.assets.any (fun a => a.id == assetId))
            s.buckets b hget
        obtain ⟨a, ha, hid⟩ := List.any_eq_true.mp hpb
        have hlt : b.assets.findIdx (fun a => a.id == assetId) < b.assets.length :=
          List.findIdx_lt_length_of_exists ⟨a, ha, hid⟩
        simp [hget, List.getElem?_eq_getElem hlt]

/-- Auxiliary: height sum of an appended bucket list. -/
theorem sumHeights_append (l₁ l₂ : List AssetBucket) :
    sumHeights (l₁ ++ l₂) = sumHeights l₁ + sumHeights l₂ := by
  simp [sumHeights]

/-- Auxiliary: height sum of a cons. -/
theorem sumHeights_cons (b : AssetBucket) (l : List AssetBucket) :
    sumHeights (b :: l) = b.bucketHeight + sumHeights l := by
  simp [sumHeights]

/-- C4: when `removeAsset` removes the last asset of its owning bucket
(split around its first occurrence, with unique dates before it), the
bucket itself is pruned from `buckets` but `timelineHeight` is left
unchanged, so afterwards `timelineHeight` exceeds the sum of the remaining
bucket heights by exactly the removed bucket's height. -/
theorem removeAsset_last_keeps_height (assetId : String) (s : AssetGridState)
    (pre post : List AssetBucket) (b : AssetBucket) (a : Asset)
    (hsplit : s.buckets = pre ++ b :: post)
    (hassets : b.assets = [a])
    (hid : (a.id == assetId) = true)
    (hpre : ∀ c ∈ pre, (c.assets.any (fun x => x.id == assetId)) = false)
    (hkeys : ∀ c ∈ pre, (c.bucketDate == b.bucketDate) = false)
    (hI2 : s.timelineHeight = sumHeights s.buckets) :
    removeAsset assetId s
      = some { s with buckets := pre ++ post
                      assets := flatMapAssets (pre ++ post) } ∧
    s.timelineHeight = sumHeights (pre ++ post) + b.bucketHeight := by
  have hpb : (b.assets.any (fun x => x.id == assetId)) = true := by
    rw [hassets]
    simp [hid]
  have hidx : s.buckets.findIdx (fun c => c.assets.any (fun x => x.id == assetId))
      = pre.length := by
    rw [hsplit]
    exact findIdx_middle pre b post hpre hpb
  constructor
  · unfold removeAsset
    rw [hidx, hsplit]
    have hrb : removeBucketFrom b.bucketDate
        (pre ++ { b with assets := ([] : List Asset) } :: post) = pre ++ post := by
      unfold removeBucketFrom
      rw [findIdx_middle pre _ post hkeys (by simp), eraseIdx_middle]
    simp only [getElem?_middle, hassets, List.findIdx_cons, hid, cond_true,
      List.eraseIdx_cons_zero, set_middle, List.length_nil, hrb]
    simp [hrb]
  · rw [hI2, hsplit, sumHeights_append, sumHeights_cons, sumHeights_append]
    omega

/-- Witness for C4: removing the only asset of bucket "b1" prunes the
bucket but leaves the timeline height at 30, which is 10 more than the
remaining bucket's height of 20. -/
theorem removeAsset_last_keeps_height_witness :
    removeAsset "x"
      { initialized := true, viewportHeight := 800, viewportWidth := 400,
        timelineHeight := 30,
        buckets := [⟨"b1", 10, [⟨"x", false⟩], 0⟩, ⟨"b2", 20, [⟨"y", true⟩], 1⟩],
        assets := [⟨"x", false⟩, ⟨"y", true⟩] }
      = some { initialized := true, viewportHeight := 800, viewportWidth := 400,
               timelineHeight := 30,
               buckets := [⟨"b2", 20, [⟨"y", true⟩], 1⟩],
               assets := [⟨"y", true⟩] } ∧
    (30 : Int) = sumHeights [⟨"b2", 20, [⟨"y", true⟩], 1⟩] + 10 := by
  have h := removeAsset_last_keeps_height "x"
    { initialized := true, viewportHeight := 800, viewportWidth := 400,
      timelineHeight := 30,
      buckets := [⟨"b1", 10, [⟨"x", false⟩], 0⟩, ⟨"b2", 20, [⟨"y", true⟩], 1⟩],
      assets := [⟨"x", false⟩, ⟨"y", true⟩] }
    [] [⟨"b2", 20, [⟨"y", true⟩], 1⟩] ⟨"b1", 10, [⟨"x", false⟩], 0⟩ ⟨"x", false⟩
    rfl rfl (by decide) (by decide) (by decide) (by decide)
  refine ⟨?_, h.2⟩
  rw [h.1]
  rfl

/-- Auxiliary: the state built by `setInitialState` satisfies I3 outright
(empty flattened list, all buckets empty). -/
theorem I3_setInitialState (estimator : Nat → Int → Int)
    (vh vw : Int) (layout : List BucketData) (tok0 : Nat) :
    I3 (setInitialState estimator vh vw layout tok0) := by
  show ([] : List Asset) = flatMapAssets (mkBuckets estimator vw layout tok0)
  rw [flatMapAssets_eq_nil _ (mkBuckets_assets_empty estimator vw layout tok0)]

/-- Auxiliary: applying fetched assets restores I3 (either the update
recomputes the flattened list, or the missing-bucket throw leaves the
state unchanged). -/
theorem I3_applyBucketAssets (k : String) (fetched : List Asset)
    (s : AssetGridState) (h : I3 s) : I3 (applyBucketAssets k fetched s) := by
  unfold applyBucketAssets
  cases hget : s.buckets[s.buckets.findIdx (fun b => b.bucketDate == k)]? with
  | none => simpa [hget] using h
  | some b => simp [hget, I3]

/-- Auxiliary: a successful `removeAsset` restores I3 by recomputing the
flattened list. -/
theorem I3_removeAsset (assetId : String) (s s' : AssetGridState)
    (h : removeAsset assetId s = some s') : I3 s' := by
  unfold removeAsset at h
  cases hget : s.buckets[s.buckets.findIdx
      (fun b => b.assets.any (fun a => a.id == assetId))]? with
  | none => simp [hget] at h
  | some b =>
      simp only [hget] at h
      cases h
      rfl

/-- Auxiliary: a successful `updateAsset` restores I3 by recomputing the
flattened list. -/
theorem I3_updateAsset (assetId : String) (fav : Bool) (s s' : AssetGridState)
    (h : updateAsset assetId fav s = some s') : I3 s' := by
  unfold updateAsset at h
  cases hget : s.buckets[s.buckets.findIdx
      (fun b => b.assets.any (fun a => a.id == assetId))]? with
  | none => simp [hget] at h
  | some b =>
      simp only [hget] at h
      cases hget2 : b.assets[b.assets.findIdx (fun a => a.id == assetId)]? with
      | none => simp [hget2] at h
      | some a =>
          simp only [hget2] at h
          cases h
          rfl

/-- Auxiliary: a successful `updateBucketHeight` preserves I3 — the bucket
it replaces keeps its asset list, so the flattened list is unchanged. -/
theorem I3_updateBucketHeight (k : String) (hh : Int) (s s' : AssetGridState)
    (h : updateBucketHeight k hh s = some s') (hI : I3 s) : I3 s' := by
  unfold updateBucketHeight at h
  cases hget : s.buckets[s.buckets.findIdx (fun b => b.bucketDate == k)]? with
  | none => simp [hget] at h
  | some b =>
      simp only [hget] at h
      cases h
      show s.assets = flatMapAssets (s.buckets.set _ _)
      rw [flatMapAssets_set_same _ _ b { b with bucketHeight := hh } hget rfl]
      exact hI

/-- C1: invariant I3 — the flattened `assets` list equals the
concatenation of the buckets' asset lists in bucket order — is preserved
by every operation of the store: `setInitialState`, the issue and
(successful or not) settlement halves of `requestBucket`,
`cancelBucketRequest`, `reset`, `removeAsset`, `updateAsset` and
`updateBucketHeight`. -/
theorem step_preserves_I3 (estimator : Nat → Int → Int) (e : Event) (s : Sys)
    (h : I3 s.grid) : I3 (stepEvent estimator e s).grid := by
  cases e with
  | setInitial vh vw layout => exact I3_setInitialState estimator vh vw layout s.nextToken
  | issue k =>
      show I3 (issueFetch k s).grid
      unfold issueFetch
      cases s.grid.buckets.find? (fun b => b.bucketDate == k) with
      | none => exact h
      | some b =>
          dsimp only
          split
          · exact h
          · exact h
  | settle f result =>
      show I3 (settleFetch f result s).grid
      unfold settleFetch
      split
      · dsimp only
        split
        · exact h
        · exact I3_applyBucketAssets f.bucket result s.grid h
      · exact h
  | cancel k =>
      show I3 (cancelBucketRequest k s).grid
      unfold cancelBucketRequest
      cases hfind : s.grid.buckets.find? (fun b => b.bucketDate == k) with
      | none => exact h
      | some b =>
          show s.grid.assets = flatMapAssets (s.grid.buckets.set _ _)
          rw [flatMapAssets_set_same _ _ b { b with cancelToken := s.nextToken }
            (getElem?_findIdx_of_find? hfind) rfl]
          exact h
  | reset =>
      show I3 AssetGridState.empty
      rfl
  | removeItem assetId =>
      show I3 ((removeAsset assetId s.grid).getD s.grid)
      cases hrem : removeAsset assetId s.grid with
      | none => exact h
      | some s' => exact I3_removeAsset assetId s.grid s' hrem
  | updateFlag assetId fav =>
      show I3 ((updateAsset assetId fav s.grid).getD s.grid)
      cases hupd : updateAsset assetId fav s.grid with
      | none => exact h
      | some s' => exact I3_updateAsset assetId fav s.grid s' hupd
  | measure k hh =>
      show I3 ((updateBucketHeight k hh s.grid).getD s.grid)
      cases hupd : updateBucketHeight k hh s.grid with
      | none => exact h
      | some s' => exact I3_updateBucketHeight k hh s.grid s' hupd h

/-- Auxiliary: `issueFetch` only records the in-flight fetch; the grid
state is untouched. -/
theorem issueFetch_grid (k : String) (s : Sys) : (issueFetch k s).grid = s.grid := by
  unfold issueFetch
  cases s.grid.buckets.find? (fun b => b.bucketDate == k) with
  | none => rfl
  | some b =>
      dsimp only
      split
      · rfl
      · rfl

/-- Auxiliary: no operation ever un-aborts a controller — the set of
aborted controllers only grows. -/
theorem aborted_mono_step (estimator : Nat → Int → Int) (e : Event) (s : Sys)
    (t : Nat) (h : t ∈ s.aborted) : t ∈ (stepEvent estimator e s).aborted := by
  cases e with
  | setInitial vh vw layout => exact h
  | issue k =>
      show t ∈ (issueFetch k s).aborted
      unfold issueFetch
      cases s.grid.buckets.find? (fun b => b.bucketDate == k) with
      | none => exact h
      | some b =>
          dsimp only
          split
          · exact h
          · exact h
  | settle f result =>
      show t ∈ (settleFetch f result s).aborted
      unfold settleFetch
      split
      · exact h
      · exact h
  | cancel k =>
      show t ∈ (cancelBucketRequest k s).aborted
      unfold cancelBucketRequest
      cases s.grid.buckets.find? (fun b => b.bucketDate == k) with
      | none => exact h
      | some b => exact List.mem_cons_of_mem _ h
  | reset => exact List.mem_append_right _ h
  | removeItem assetId => exact h
  | updateFlag assetId fav => exact h
  | measure k hh => exact h

/-- Auxiliary: an aborted controller stays aborted across any sequence of
operations. -/
theorem aborted_mono_exec (estimator : Nat → Int → Int) (es : List Event)
    (s : Sys) (t : Nat) (h : t ∈ s.aborted) :
    t ∈ (exec estimator es s).aborted := by
  induction es generalizing s with
  | nil => exact h
  | cons e rest ih => exact ih (stepEvent estimator e s) (aborted_mono_step estimator e s t h)

/-- Auxiliary: settling a fetch whose controller is already aborted
leaves the grid state untouched — the promise rejects with
`CanceledError` and the result is discarded. -/
theorem settle_aborted_grid (f : InFlight) (t : Nat) (result : List Asset)
    (s : Sys) (htok : f.token = some t) (hab : t ∈ s.aborted) :
    (settleFetch f result s).grid = s.grid := by
  unfold settleFetch
  split
  · dsimp only
    rw [htok]
    simp [hab]
  · rfl

/-- Auxiliary: `cancelBucketRequest k` aborts the controller currently
installed on bucket `k`. -/
theorem cancel_aborts_token (k : String) (b : AssetBucket) (s : Sys)
    (hfind : s.grid.buckets.find? (fun c => c.bucketDate == k) = some b) :
    b.cancelToken ∈ (cancelBucketRequest k s).aborted := by
  unfold cancelBucketRequest
  rw [hfind]
  exact List.mem_cons_self _ _

/-- Auxiliary: `reset` aborts every bucket's controller. -/
theorem reset_aborts_token (b : AssetBucket) (s : Sys)
    (hmem : b ∈ s.grid.buckets) :
    b.cancelToken ∈ (resetStore s).aborted :=
  List.mem_append_left _ (List.mem_map_of_mem _ hmem)

/-- C2: a fetch superseded before its result is applied never overwrites
the bucket with stale results.  A fetch issued for bucket `k` is bound to
the bucket's abort controller at issue time; once a
`cancelBucketRequest k` — or a `reset` — aborts that controller, then
whatever operations run afterwards, the eventual settlement of that fetch
is classified as cancelled at the moment of application and leaves the
grid state untouched. -/
theorem stale_fetch_never_applied (estimator : Nat → Int → Int) (k : String)
    (b : AssetBucket) (result : List Asset) (s0 : Sys) (es : List Event)
    (hfind : s0.grid.buckets.find? (fun c => c.bucketDate == k) = some b)
    (hempty : b.assets = []) :
    ((stepEvent estimator (Event.settle ⟨k, some b.cancelToken⟩ result)
        (exec estimator es (stepEvent estimator (Event.cancel k)
          (stepEvent estimator (Event.issue k) s0)))).grid
      = (exec estimator es (stepEvent estimator (Event.cancel k)
          (stepEvent estimator (Event.issue k) s0))).grid) ∧
    ((stepEvent estimator (Event.settle ⟨k, some b.cancelToken⟩ result)
        (exec estimator es (stepEvent estimator Event.reset
          (stepEvent estimator (Event.issue k) s0)))).grid
      = (exec estimator es (stepEvent estimator Event.reset
          (stepEvent estimator (Event.issue k) s0))).grid) := by
  have hgrid : (stepEvent estimator (Event.issue k) s0).grid = s0.grid :=
    issueFetch_grid k s0
  constructor
  · apply settle_aborted_grid _ b.cancelToken _ _ rfl
    apply aborted_mono_exec
    apply cancel_aborts_token k b
    rw [hgrid]
    exact hfind
  · apply settle_aborted_grid _ b.cancelToken _ _ rfl
    apply aborted_mono_exec
    apply reset_aborts_token b
    rw [hgrid]
    exact List.mem_of_find?_eq_some hfind

/-- Witness for C2: with one Empty bucket "b1" bound to controller 0, the
fetch issued for it and superseded by a cancel is not applied: the grid
after cancel (and no further events) is unchanged by the settlement. -/
theorem stale_fetch_never_applied_witness :
    (stepEvent demoEstimator (Event.settle ⟨"b1", some 0⟩ [⟨"n1", false⟩])
        (exec demoEstimator [] (stepEvent demoEstimator (Event.cancel "b1")
          (stepEvent demoEstimator (Event.issue "b1")
            { grid := { initialized := true, viewportHeight := 800, viewportWidth := 400,
                        timelineHeight := 10,
                        buckets := [⟨"b1", 10, [], 0⟩], assets := [] }
              aborted := [], pending := [], nextToken := 1 })))).grid
      = (exec demoEstimator [] (stepEvent demoEstimator (Event.cancel "b1")
          (stepEvent demoEstimator (Event.issue "b1")
            { grid := { initialized := true, viewportHeight := 800, viewportWidth := 400,
                        timelineHeight := 10,
                        buckets := [⟨"b1", 10, [], 0⟩], assets := [] }
              aborted := [], pending := [], nextToken := 1 }))).grid :=
  (stale_fetch_never_applied demoEstimator "b1" ⟨"b1", 10, [], 0⟩ [⟨"n1", false⟩]
    { grid := { initialized := true, viewportHeight := 800, viewportWidth := 400,
                timelineHeight := 10,
                buckets := [⟨"b1", 10, [], 0⟩], assets := [] }
      aborted := [], pending := [], nextToken := 1 }
    [] (by decide) rfl).1

/-- Witness for C1: a concrete state satisfying I3 still satisfies it
after a `removeAsset` step. -/
theorem step_preserves_I3_witness :
    I3 (stepEvent demoEstimator (Event.removeItem "x")
      { grid := { initialized := true, viewportHeight := 800, viewportWidth := 400,
                  timelineHeight := 30,
                  buckets := [⟨"b1", 10, [⟨"x", false⟩], 0⟩,
                              ⟨"b2", 20, [⟨"y", true⟩], 1⟩],
                  assets := [⟨"x", false⟩, ⟨"y", true⟩] }
        aborted := [], pending := [], nextToken := 2 }).grid :=
  step_preserves_I3 demoEstimator (Event.removeItem "x") _ (by unfold I3; decide)

end AssetStore

namespace AssetService

/-- C9: on new item ingestion the upload pipeline enqueues a
thumbnail-generation job first; for a video it then enqueues a transcode
job followed by a metadata-extraction job (three jobs total); for an
image it then enqueues a metadata(EXIF)-extraction job (two jobs total);
and an explicit save enqueues one search-index-update job keyed by the
item's identifier — matching the queue-call sequences asserted in
`asset.service.spec.ts`. -/
theorem upload_dispatch_contract :
    handleAssetUpload AssetType.video
      = [JobName.generateJpegThumbnail, JobName.videoConversion,
         JobName.extractVideoMetadata] ∧
    (handleAssetUpload AssetType.video).length = 3 ∧
    handleAssetUpload AssetType.image
      = [JobName.generateJpegThumbnail, JobName.exifExtraction] ∧
    (handleAssetUpload AssetType.image).length = 2 ∧
    ∀ assetId : String,
      saveJobs assetId = [{ name := JobName.searchIndexAsset, ids := [assetId] }] :=
  ⟨rfl, rfl, rfl, rfl, fun _ => rfl⟩

end AssetService
